import Mathlib

/-!
Shallow embedding of the template-rendering and value-bridging core of the
configcrunch repository (src/lib.rs, src/minijinja.rs), together with theorems
checking the specification's claims against it.

Modelling conventions:
* Rust machine integers are embedded as `Nat`/`Int` (no claim depends on width
  or overflow behaviour).
* `f64` payloads are embedded as their raw bit pattern (`F64`); no claim
  computes with floats.
* Python-side values (`pyo3::PyObject`) are embedded as the first-order
  `PyObj`; Python callables as `PyCallable` (a name plus a function from
  positional arguments to a result-or-PyErr).
* The shared handle `Py<YamlConfigDocument>` (`PyYamlConfigDocument`) is
  embedded as the document value itself; the one interior mutation performed
  through the handle (populating the helper cache) is made explicit in the
  functions that perform it.
* `HashMap`s are embedded as association lists whose insert operation
  (`mapInsert`) has exactly the `HashMap` lookup semantics: the new binding
  wins and all other keys are untouched.
-/

namespace Configcrunch

/-- The template-start marker character (code 123), the char scanned for by
`TemplateRenderer::render`'s fast path. -/
def lbrace : Char := Char.ofNat 123

/-- The closing counterpart of `lbrace` (code 125), used to build template
literals. -/
def rbrace : Char := Char.ofNat 125

/-- lib.rs: `pub(crate) const FORCE_STRING: &str = "__forcestring__";` -/
def FORCE_STRING : String := "__forcestring__"

/-- A Python-side exception (`pyo3::PyErr`), embedded as the diagnostic text it
renders to. -/
structure PyErr where
  msg : String
deriving DecidableEq

/-- The text produced by Rust's debug formatting of a `PyErr`
(`format!("... {:?}", in_e)`), embedded as the carried diagnostic text. -/
def pyErrDebug (e : PyErr) : String := e.msg

/-- An `f64` payload, embedded as its raw bit pattern; no claim computes with
floating point. -/
structure F64 where
  bits : Nat
deriving DecidableEq

/-- A Python-side value as seen across the pyo3 boundary: the shapes produced
by `WValue::to_object` plus an opaque shape for Python objects outside the
structured model. -/
inductive PyObj where
  | none
  | bool (b : Bool)
  | int (i : Int)
  | float (f : F64)
  | str (s : String)
  | bytes (bs : List Nat)
  | obj (tag : String)
deriving DecidableEq

/-- A Python callable (`PyObject` used as a helper): its declared `__name__`
and its behaviour on a tuple of positional arguments. -/
structure PyCallable where
  name : String
  fn : List PyObj → Except PyErr PyObj

mutual
/-- conv.rs `YcdValueType` (the Structured Value model): the closed variant set
Dict / List / YString / Bool / Int / Float / Ycd.  The `ycd` variant holds a
shared handle to a document, embedded as the document itself. -/
inductive YcdValueType where
  | dict (m : List (String × YcdValueType))
  | list (l : List YcdValueType)
  | yString (s : String)
  | bool (b : Bool)
  | int (i : Int)
  | float (f : F64)
  | ycd (d : YamlConfigDocument)

/-- ycd.rs `YamlConfigDocument` (only the fields this core reads): the field
mapping `doc` and the helper-binding cache `bound_helpers`.  The third
component models the Document owner's `list_bound_helpers` capability (spec
section 6) that `collect_bound_variable_helpers` consults; it is `Except`-valued
because that collection is a Python call that may fail. -/
inductive YamlConfigDocument where
  | mk (doc : List (String × YcdValueType))
      (bound_helpers : List (String × PyCallable))
      (owner_helpers : Except PyErr (List (String × PyCallable)))
end

/-- Field mapping of a document. -/
def YamlConfigDocument.doc : YamlConfigDocument → List (String × YcdValueType)
  | .mk d _ _ => d

/-- Helper-binding cache of a document. -/
def YamlConfigDocument.bound_helpers : YamlConfigDocument → List (String × PyCallable)
  | .mk _ b _ => b

/-- The owner's enumeration of bound helpers (spec section 6 capability). -/
def YamlConfigDocument.owner_helpers :
    YamlConfigDocument → Except PyErr (List (String × PyCallable))
  | .mk _ _ o => o

/-- `PyYamlConfigDocument` is a shared handle (`Py<YamlConfigDocument>`) to a
document; embedded as the document itself. -/
def PyYamlConfigDocument := YamlConfigDocument

/-- Modelled from the spec: `YamlConfigDocument::collect_bound_variable_helpers`
lives in ycd.rs, which is not among the given sources.  Per the spec (sections
4.2 and 6) it performs the one-time collection by asking the Document's owner to
enumerate its bound helpers and populates the helper-binding cache with that
enumeration; as a Python call it may fail with a `PyErr`. -/
def collect_bound_variable_helpers (d : YamlConfigDocument) :
    Except PyErr YamlConfigDocument :=
  match d.owner_helpers with
  | .ok hs => .ok (.mk d.doc hs d.owner_helpers)
  | .error e => .error e

/-- minijinja `ErrorKind` (only the variants this core produces or that the
modelled engine reports). -/
inductive ErrorKind where
  | ImpossibleOperation
  | SyntaxError
deriving DecidableEq

/-- minijinja `Error`: a kind plus a human-readable detail string
(`Error::new(kind, detail)`). -/
structure Error where
  kind : ErrorKind
  detail : String
deriving DecidableEq

/-- minijinja `Value` (the Generic Template Value): the primitive shapes of
`Primitive`, sequences, maps, and the two dynamic-object shapes this core
creates with `Value::from_object` (a document adapter and a `YHashMap`
adapter). -/
inductive Value where
  | undefined
  | none
  | bool (b : Bool)
  | u64 (n : Nat)
  | u128 (n : Nat)
  | i64 (i : Int)
  | i128 (i : Int)
  | f64 (f : F64)
  | char (c : Char)
  | str (s : String)
  | bytes (bs : List Nat)
  | seq (xs : List Value)
  | map (m : List (String × Value))
  | document (d : YamlConfigDocument)
  | yhash (m : List (String × YcdValueType))

/-- minijinja's `Display` for `Value`, used by `.to_string()` and for rendered
output.  The arms the theorems rely on (strings, integers, bools, none,
undefined) follow minijinja's documented display; the remaining arms are
placeholders no theorem depends on. -/
def displayValue : Value → String
  | .undefined => ""
  | .none => "none"
  | .bool b => cond b "true" "false"
  | .u64 n => toString n
  | .u128 n => toString n
  | .i64 i => toString i
  | .i128 i => toString i
  | .f64 f => toString f.bits
  | .char c => String.mk [c]
  | .str s => s
  | .bytes _ => "(bytes)"
  | .seq _ => "(sequence)"
  | .map _ => "(map)"
  | .document _ => "(document)"
  | .yhash _ => "(map)"

mutual
/-- minijinja.rs `impl From<YcdValueType> for Value` (by value): Dict wraps the
mapping in a lazy `YHashMap` object adapter, List converts eagerly and deeply,
scalars map to the matching primitive, and Ycd becomes a document object. -/
def valueOfYcd : YcdValueType → Value
  | .dict m => .yhash m
  | .list l => .seq (valueOfYcdList l)
  | .yString s => .str s
  | .bool b => .bool b
  | .int i => .i64 i
  | .float f => .f64 f
  | .ycd d => .document d

/-- Elementwise `From<YcdValueType>` conversion of a list (the
`into_iter().map(|v| v.into()).collect()` of the List arm). -/
def valueOfYcdList : List YcdValueType → List Value
  | [] => []
  | x :: xs => valueOfYcd x :: valueOfYcdList xs
end

mutual
/-- minijinja.rs `impl From<&YcdValueType> for Value` (by reference): same
shape as the by-value conversion, cloning where the source clones. -/
def valueOfYcdRef : YcdValueType → Value
  | .dict m => .yhash m
  | .list l => .seq (valueOfYcdRefList l)
  | .yString s => .str s
  | .bool b => .bool b
  | .int i => .i64 i
  | .float f => .f64 f
  | .ycd d => .document d

/-- Elementwise `From<&YcdValueType>` conversion of a list (the
`iter().map(|v| v.into()).collect()` of the List arm). -/
def valueOfYcdRefList : List YcdValueType → List Value
  | [] => []
  | x :: xs => valueOfYcdRef x :: valueOfYcdRefList xs
end

/-- minijinja.rs `WValue::to_object`: marshal one generic template value to a
Python value.  `as_primitive()` yields `None` for sequences, maps and dynamic
objects, which therefore marshal to Python `None`; `Undefined` and `None`
primitives also marshal to Python `None`; a char marshals to a one-character
Python string (pyo3's `ToPyObject` for `char`). -/
def toObject : Value → PyObj
  | .undefined => .none
  | .none => .none
  | .bool b => .bool b
  | .u64 n => .int (Int.ofNat n)
  | .u128 n => .int (Int.ofNat n)
  | .i64 i => .int i
  | .i128 i => .int i
  | .f64 f => .float f
  | .char c => .str (String.mk [c])
  | .str s => .str s
  | .bytes bs => .bytes bs
  | .seq _ => .none
  | .map _ => .none
  | .document _ => .none
  | .yhash _ => .none

/-- Modelled from the spec: the `FromPyObject` conversion of an external return
value into a Structured Value (`v.extract::<YcdValueType>(py)`) lives in
conv.rs, which is not among the given sources.  Per the spec (section 4.3) the
external return value must convert into a Structured Value and the conversion
fails on a value that cannot be represented. -/
def extractYcd : PyObj → Except PyErr YcdValueType
  | .bool b => .ok (.bool b)
  | .int i => .ok (.int i)
  | .float f => .ok (.float f)
  | .str s => .ok (.yString s)
  | .none => .error ⟨"TypeError: cannot convert None to YcdValueType"⟩
  | .bytes _ => .error ⟨"TypeError: cannot convert bytes to YcdValueType"⟩
  | .obj t => .error ⟨"TypeError: cannot convert " ++ t ++ " to YcdValueType"⟩

/-- minijinja.rs `convert_pyerr` (the error value it wraps): a uniform
`ImpossibleOperation` error whose detail embeds only the debug text of the
Python fault. -/
def convert_pyerr_val (e : PyErr) : Error :=
  ⟨ErrorKind.ImpossibleOperation, "Error in a function: " ++ pyErrDebug e⟩

/-- minijinja.rs `convert_pyerr<_T>`: always the error from
`convert_pyerr_val`, at any result type. -/
def convert_pyerr {α : Type} (e : PyErr) : Except Error α :=
  .error (convert_pyerr_val e)

/-- Body of the closure built by `TemplateRenderer::create_helper_fn`, after
the arguments have been marshalled into a Python tuple: call the Python
callable; on success extract the result into a Structured Value and convert it
back into a generic template value; surface either failure through
`convert_pyerr`. -/
def helperCallResult (pyf : PyCallable) (pyargs : List PyObj) : Except Error Value :=
  match pyf.fn pyargs with
  | .ok v =>
    match extractYcd v with
    | .ok ycdvalue => .ok (valueOfYcd ycdvalue)
    | .error e => convert_pyerr e
  | .error e => convert_pyerr e

/-- minijinja.rs `TemplateRenderer::create_helper_fn`: wrap a Python callable
as a template-invocable function; each incoming argument is marshalled through
`WValue::to_object` into the positional tuple. -/
def create_helper_fn (pyf : PyCallable) : List Value → Except Error Value :=
  fun args => helperCallResult pyf (args.map toObject)

/-- minijinja.rs `impl Object for PyYamlConfigDocument`, `get_attr`: look the
name up in the document's field mapping and convert the borrowed value
(`From<&YcdValueType>`); a missing key yields no value. -/
def get_attr (d : YamlConfigDocument) (name : String) : Option Value :=
  (List.lookup name d.doc).map valueOfYcdRef

/-- minijinja.rs `impl Object for PyYamlConfigDocument`, `call_method`: if the
helper-binding cache is empty, run the one-time collection (converting a
Python failure through `convert_pyerr`) and re-check; a name absent from the
cache is an `ImpossibleOperation` "Method ... not found" error; a bound name
dispatches to the Helper Function Adapter. -/
def call_method (d : YamlConfigDocument) (name : String) (args : List Value) :
    Except Error Value :=
  match (if d.bound_helpers.isEmpty then collect_bound_variable_helpers d else .ok d) with
  | .error e => .error (convert_pyerr_val e)
  | .ok d2 =>
    match List.lookup name d2.bound_helpers with
    | .none => .error ⟨ErrorKind.ImpossibleOperation,
        "Method " ++ name ++ " not found on object"⟩
    | .some helper => create_helper_fn helper args

/-- minijinja.rs `impl Object for YHashMap<String, YcdValueType>`, `get_attr`:
lazy lookup in the wrapped mapping, converting on access. -/
def yhashGetAttr (m : List (String × YcdValueType)) (name : String) : Option Value :=
  (List.lookup name m).map valueOfYcdRef

/-- `HashMap` insertion on the association-list embedding: the new binding is
present and every other key keeps its binding. -/
def mapInsert {α : Type} (m : List (String × α)) (k : String) (v : α) :
    List (String × α) :=
  (k, v) :: m.filter (fun p => !(p.1 == k))

/-- minijinja `Environment` (the parts this core touches): registered filters,
registered global functions, and stored templates (name to source). -/
structure Environment where
  filters : List (String × (String → Except Error String))
  functions : List (String × (List Value → Except Error Value))
  templates : List (String × String)

/-- `Environment::new()`: an empty environment. -/
def Environment.new : Environment := ⟨[], [], []⟩

/-- `Environment::add_filter`. -/
def Environment.add_filter (e : Environment) (name : String)
    (f : String → Except Error String) : Environment :=
  { e with filters := mapInsert e.filters name f }

/-- `Environment::add_function`. -/
def Environment.add_function (e : Environment) (name : String)
    (f : List Value → Except Error Value) : Environment :=
  { e with functions := mapInsert e.functions name f }

/-- `Environment::add_template` (storage part; whether the source compiles is
the engine's check, modelled separately by `Backend.compile`). -/
def Environment.add_template (e : Environment) (name source : String) : Environment :=
  { e with templates := mapInsert e.templates name source }

/-- `Environment::remove_template`. -/
def Environment.remove_template (e : Environment) (name : String) : Environment :=
  { e with templates := e.templates.filter (fun p => !(p.1 == name)) }

/-- minijinja.rs `str_filter`: build the force-string text, wrap it as a string
`Value` and take its display text (`Value::from(..).to_string()`). -/
def str_filter (value : String) : Except Error String :=
  .ok (displayValue (Value.str (FORCE_STRING ++ value)))

/-- minijinja.rs `TemplateRenderer`: the evaluation environment, the owned
document handle, and the (write-only) `globals` map filled by `add_helpers`. -/
structure TemplateRenderer where
  env : Environment
  document : YamlConfigDocument
  globals : List (String × (List Value → Except Error Value))

/-- `TemplateRenderer::STR_FILTER`. -/
def STR_FILTER : String := "str"

/-- `TemplateRenderer::TPL_NAME`. -/
def TPL_NAME : String := "tpl"

/-- minijinja.rs `TemplateRenderer::new`: if the document's helper cache is
empty, run the one-time collection (a `PyResult`, so failure propagates);
construct a fresh environment; register the string-forcing filter. -/
def TemplateRenderer.new (dref : YamlConfigDocument) :
    Except PyErr TemplateRenderer :=
  match (if dref.bound_helpers.isEmpty
         then collect_bound_variable_helpers dref else .ok dref) with
  | .error e => .error e
  | .ok d =>
    .ok { env := Environment.new.add_filter STR_FILTER str_filter,
          document := d, globals := [] }

/-- minijinja.rs `TemplateRenderer::build_context`:
`Value::from_object(document)`. -/
def build_context (document : YamlConfigDocument) : Value :=
  Value.document document

/-- The minijinja engine itself is an external library; its two effects inside
`render` are modelled as a backend: `compile` is the syntax check performed by
`add_template` (`Option.none` means the source compiles), and `evaluate` is
`get_template(..).render_from_value(..)` on the stored source against a root
context, under a given environment. -/
structure Backend where
  compile : String → Option Error
  evaluate : Environment → String → Value → Except Error String

/-- minijinja.rs `TemplateRenderer::render` over an engine backend.  The Rust
function consumes `self`; the final environment is returned alongside the
result so the frame effect on it is observable.  Steps, as in the source:
fast path when the input has no template-start marker; register each supplied
helper as a global function; `add_template` (early error return on a compile
failure, in which case the template was not stored); evaluate the stored
template against the document context (early error return on an evaluation
failure, in which case the template stays stored); on success remove the
template and return the output.  (`get_template` on the just-added name cannot
fail and has no separate model.) -/
def TemplateRenderer.render (bk : Backend) (slf : TemplateRenderer)
    (helpers : List (String × PyCallable)) (input : String) :
    Except Error (Option String) × Environment :=
  if !(input.data.contains lbrace) then
    (.ok Option.none, slf.env)
  else
    let env1 := helpers.foldl
      (fun e p => e.add_function p.1 (create_helper_fn p.2)) slf.env
    match bk.compile input with
    | .some e => (.error e, env1)
    | .none =>
      let env2 := env1.add_template TPL_NAME input
      match bk.evaluate env2 input (build_context slf.document) with
      | .error e => (.error e, env2)
      | .ok result => (.ok (.some result), env2.remove_template TPL_NAME)

/-- minijinja.rs `TemplateRenderer::add_helpers`: extend `globals` with one
entry per supplied callable, keyed by the callable's declared `__name__` and
wrapping it through `create_helper_fn`; no other field changes and nothing is
returned besides the updated renderer state. -/
def TemplateRenderer.add_helpers (slf : TemplateRenderer)
    (helpers : List PyCallable) : TemplateRenderer :=
  let g2 := helpers.foldl (fun g f => mapInsert g f.name (create_helper_fn f)) slf.globals
  { slf with globals := g2 }

/-- Template literal builder for the modelled engine: the text
`(lbrace)(lbrace) inner (rbrace)(rbrace)`. -/
def mustache (inner : String) : String :=
  String.mk [lbrace, lbrace, ' '] ++ inner ++ String.mk [' ', rbrace, rbrace]

/-- Recognizer for the template shape the modelled engine supports: exactly
one interpolation spanning the whole input; yields the inner expression. -/
def parseTpl (input : String) : Option String :=
  let cs := input.data
  if 7 ≤ cs.length ∧ cs.take 3 = [lbrace, lbrace, ' ']
     ∧ cs.drop (cs.length - 3) = [' ', rbrace, rbrace] then
    .some (String.mk ((cs.drop 3).take (cs.length - 6)))
  else
    .none

/-- Whether the inner expression of a modelled template is a zero-argument
call (ends in open-close parentheses). -/
def innerIsCall (inner : String) : Bool :=
  (inner.data.drop (inner.data.length - 2)) == ['(', ')']

/-- The callee name of a zero-argument call expression. -/
def innerCallee (inner : String) : String :=
  String.mk (inner.data.take (inner.data.length - 2))

/-- Models the minijinja engine's evaluation on the two minimal template
shapes the modelled `parseTpl` accepts: interpolation of a variable, resolved
against the root context object through the Document Adapter's `get_attr`
(a missing attribute is the engine's undefined, which displays as empty text in
the engine's default mode), and a zero-argument method-style call, which the
engine dispatches to the context object's `call_method`.  The rendered output
is the display text of the resulting value. -/
def miniEvaluate (_env : Environment) (src : String) (ctx : Value) :
    Except Error String :=
  match parseTpl src with
  | .none => .error ⟨ErrorKind.SyntaxError, "unsupported template shape"⟩
  | .some inner =>
    match ctx with
    | Value.document d =>
      if innerIsCall inner then
        match call_method d (innerCallee inner) [] with
        | .ok v => .ok (displayValue v)
        | .error e => .error e
      else
        match get_attr d inner with
        | .some v => .ok (displayValue v)
        | .none => .ok (displayValue Value.undefined)
    | _ => .error ⟨ErrorKind.ImpossibleOperation, "unsupported context shape"⟩

/-- The modelled engine backend: a source compiles when it has the supported
template shape; evaluation is `miniEvaluate`. -/
def miniBackend : Backend :=
  { compile := fun input =>
      match parseTpl input with
      | .some _ => .none
      | .none => .some ⟨ErrorKind.SyntaxError, "invalid template syntax"⟩,
    evaluate := miniEvaluate }

end Configcrunch

namespace Configcrunch

/-! ### Concrete fixtures used by witnesses and counterexamples -/

/-- A document with one field `name = "alice"`, an empty helper cache, and an
owner that enumerates no bound helpers. -/
def doc1 : YamlConfigDocument :=
  .mk [("name", YcdValueType.yString "alice")] [] (Except.ok [])

/-- A renderer over `doc1` in the state `TemplateRenderer::new` produces. -/
def rDoc1 : TemplateRenderer :=
  { env := Environment.new.add_filter STR_FILTER str_filter,
    document := doc1, globals := [] }

/-- The template interpolating the field `name`. -/
def tplVar : String := mustache "name"

/-- The template calling the (unbound) helper `f`. -/
def tplCall : String := mustache "f()"

/-- A helper that returns the Python string "hi". -/
def helperHi : PyCallable := ⟨"h", fun _ => Except.ok (PyObj.str "hi")⟩

/-- A helper that faults on the Python side. -/
def helperFault : PyCallable := ⟨"f", fun _ => Except.error ⟨"boom"⟩⟩

/-- A helper that returns a Python object outside the structured model. -/
def helperBadReturn : PyCallable :=
  ⟨"b", fun _ => Except.ok (PyObj.obj "object")⟩

/-- A document whose owner enumerates the faulting helper `f`. -/
def docF : YamlConfigDocument := .mk [] [] (Except.ok [("f", helperFault)])

/-- A renderer over `docF`. -/
def rDocF : TemplateRenderer :=
  { env := Environment.new.add_filter STR_FILTER str_filter,
    document := docF, globals := [] }

/-- A document whose owner enumerates the helper `h`, with an empty cache. -/
def doc2 : YamlConfigDocument := .mk [] [] (Except.ok [("h", helperHi)])

/-! ### Association-list lemmas for the HashMap embedding -/

theorem lookup_filterKey_self {α : Type} (m : List (String × α)) (k : String) :
    List.lookup k (m.filter (fun p => !(p.1 == k))) = Option.none := by
  induction m with
  | nil => rfl
  | cons p m ih =>
    obtain ⟨pk, pv⟩ := p
    by_cases hp : pk = k
    · simp [List.filter_cons, hp, ih]
    · have hb : (pk == k) = false := by simp [hp]
      have hkb : (k == pk) = false := by simp [Ne.symm hp]
      simp [List.filter_cons, hb, List.lookup, hkb, ih]

theorem lookup_filterKey_ne {α : Type} (m : List (String × α)) (k kq : String)
    (h : kq ≠ k) :
    List.lookup kq (m.filter (fun p => !(p.1 == k))) = List.lookup kq m := by
  induction m with
  | nil => rfl
  | cons p m ih =>
    obtain ⟨pk, pv⟩ := p
    by_cases hp : pk = k
    · subst hp
      have hkb : (kq == pk) = false := by simp [h]
      simp [List.filter_cons, List.lookup, hkb, ih]
    · have hb : (pk == k) = false := by simp [hp]
      by_cases hq : kq = pk
      · subst hq
        simp [List.filter_cons, hb, List.lookup]
      · have hqb : (kq == pk) = false := by simp [hq]
        simp [List.filter_cons, hb, List.lookup, hqb, ih]

theorem lookup_mapInsert_self {α : Type} (m : List (String × α)) (k : String) (v : α) :
    List.lookup k (mapInsert m k v) = Option.some v := by
  simp [mapInsert, List.lookup]

theorem lookup_mapInsert_ne {α : Type} (m : List (String × α)) (k kq : String) (v : α)
    (h : kq ≠ k) :
    List.lookup kq (mapInsert m k v) = List.lookup kq m := by
  have hkb : (kq == k) = false := by simp [h]
  simp [mapInsert, List.lookup, hkb, lookup_filterKey_ne m k kq h]

theorem lookup_eq_none_of_not_mem_keys {α : Type} (m : List (String × α)) (k : String)
    (h : k ∉ m.map Prod.fst) : List.lookup k m = Option.none := by
  induction m with
  | nil => rfl
  | cons p m ih =>
    obtain ⟨pk, pv⟩ := p
    simp only [List.map_cons, List.mem_cons] at h
    push_neg at h
    obtain ⟨h1, h2⟩ := h
    have hb : (k == pk) = false := by simp [h1]
    simp [List.lookup, hb, ih h2]

/-! ### Agreement of the two value-conversion impls -/

mutual
theorem valueOfYcdRef_eq_valueOfYcd (v : YcdValueType) :
    valueOfYcdRef v = valueOfYcd v := by
  cases v with
  | dict m => rfl
  | list l => simp [valueOfYcdRef, valueOfYcd, valueOfYcdRefList_eq_valueOfYcdList l]
  | yString s => rfl
  | bool b => rfl
  | int i => rfl
  | float f => rfl
  | ycd d => rfl

theorem valueOfYcdRefList_eq_valueOfYcdList (l : List YcdValueType) :
    valueOfYcdRefList l = valueOfYcdList l := by
  cases l with
  | nil => rfl
  | cons x xs =>
    simp [valueOfYcdRefList, valueOfYcdList, valueOfYcdRef_eq_valueOfYcd x,
      valueOfYcdRefList_eq_valueOfYcdList xs]
end

end Configcrunch

namespace Configcrunch

/-! ### Lookup characterization of add_helpers' fold -/

theorem foldl_mapInsert_lookup (fs : List PyCallable)
    (g : List (String × (List Value → Except Error Value))) (n : String) :
    List.lookup n (fs.foldl (fun g f => mapInsert g f.name (create_helper_fn f)) g)
      = match List.find? (fun f => f.name == n) fs.reverse with
        | Option.some f => Option.some (create_helper_fn f)
        | Option.none => List.lookup n g := by
  induction fs generalizing g with
  | nil => rfl
  | cons f fs ih =>
    rw [List.foldl_cons, ih (mapInsert g f.name (create_helper_fn f)),
      List.reverse_cons, List.find?_append]
    cases hf : List.find? (fun h => h.name == n) fs.reverse with
    | some h => simp
    | none =>
      simp only [Option.none_or]
      by_cases hn : f.name = n
      · subst hn
        simp [List.find?, lookup_mapInsert_self]
      · have hb : (f.name == n) = false := by simp [hn]
        simp [List.find?, hb, lookup_mapInsert_ne g f.name n _ (Ne.symm hn)]

/-! ### Claim theorems -/

/-- C1: for every input string containing no template-start marker character,
`TemplateRenderer::render` returns the no-substitution result immediately: the
result is `Ok(None)` independently of the engine backend and of the supplied
helpers, and the environment is returned exactly as it was — no helper was
registered, no template compiled or stored, and nothing was evaluated. -/
theorem render_fast_path (bk : Backend) (slf : TemplateRenderer)
    (helpers : List (String × PyCallable)) (input : String)
    (h : input.data.contains lbrace = false) :
    TemplateRenderer.render bk slf helpers input = (Except.ok Option.none, slf.env) := by
  unfold TemplateRenderer.render
  rw [h]
  rfl

theorem render_fast_path_witness :
    TemplateRenderer.render miniBackend rDoc1 [] "plain"
      = (Except.ok Option.none, rDoc1.env) :=
  render_fast_path miniBackend rDoc1 [] "plain" rfl

/-- C2: `call_method` on a document with an empty helper-binding cache triggers
the one-time collection and re-checks the cache: when the owner's enumeration
succeeds with bindings `hs`, a name absent from `hs` fails with the
method-not-found error (an `Error` value, not a crash) and a name bound in `hs`
dispatches to the Helper Function Adapter; with a non-empty cache the same
dichotomy holds against the cache itself. -/
theorem call_method_spec (d : YamlConfigDocument) (name : String)
    (args : List Value) (hs : List (String × PyCallable)) :
    ((d.bound_helpers = [] → d.owner_helpers = Except.ok hs →
       ((List.lookup name hs = Option.none →
           call_method d name args = Except.error
             ⟨ErrorKind.ImpossibleOperation,
              "Method " ++ name ++ " not found on object"⟩)
        ∧ (∀ f, List.lookup name hs = Option.some f →
            call_method d name args = create_helper_fn f args)))
     ∧ (d.bound_helpers ≠ [] →
       ((List.lookup name d.bound_helpers = Option.none →
           call_method d name args = Except.error
             ⟨ErrorKind.ImpossibleOperation,
              "Method " ++ name ++ " not found on object"⟩)
        ∧ (∀ f, List.lookup name d.bound_helpers = Option.some f →
            call_method d name args = create_helper_fn f args)))) := by
  constructor
  · intro hemp howner
    have hred : (if d.bound_helpers.isEmpty
        then collect_bound_variable_helpers d else Except.ok d)
        = Except.ok (.mk d.doc hs d.owner_helpers) := by
      rw [hemp]
      simp [collect_bound_variable_helpers, howner]
    constructor
    · intro hnone
      unfold call_method
      rw [hred]
      simp [YamlConfigDocument.bound_helpers, hnone]
    · intro f hf
      unfold call_method
      rw [hred]
      simp [YamlConfigDocument.bound_helpers, hf]
  · intro hne
    have hfalse : d.bound_helpers.isEmpty = false := by
      cases h : d.bound_helpers with
      | nil => exact absurd h hne
      | cons a l => rfl
    constructor
    · intro hnone
      unfold call_method
      simp [hfalse, hnone]
    · intro f hf
      unfold call_method
      simp [hfalse, hf]

theorem call_method_spec_witness :
    call_method doc2 "g" [] = Except.error
      ⟨ErrorKind.ImpossibleOperation, "Method g not found on object"⟩
    ∧ call_method doc2 "h" [] = create_helper_fn helperHi [] :=
  ⟨((call_method_spec doc2 "g" [] [("h", helperHi)]).1 rfl rfl).1 rfl,
   ((call_method_spec doc2 "h" [] [("h", helperHi)]).1 rfl rfl).2 helperHi rfl⟩

/-- C3: the string-forcing filter is a pure text transform: on the stringified
form of any value it returns the fixed sentinel marker prepended to that text;
on any integer it returns the sentinel followed by the integer's decimal text,
e.g. 42 yields the sentinel followed by 42. -/
theorem str_filter_spec :
    (∀ v : Value, str_filter (displayValue v)
        = Except.ok (FORCE_STRING ++ displayValue v))
    ∧ (∀ n : Int, str_filter (displayValue (Value.i64 n))
        = Except.ok (FORCE_STRING ++ toString n))
    ∧ str_filter (displayValue (Value.i64 42)) = Except.ok "__forcestring__42" :=
  ⟨fun _ => rfl, fun _ => rfl, rfl⟩

/-- C4: `get_attr` looks the name up in the document's field mapping: a present
field yields its converted value, and a name absent from the field mapping
yields no value — by its result type the operation cannot raise an error. -/
theorem get_attr_spec (d : YamlConfigDocument) (name : String) :
    ((∀ v, List.lookup name d.doc = Option.some v →
        get_attr d name = Option.some (valueOfYcdRef v))
     ∧ (name ∉ d.doc.map Prod.fst → get_attr d name = Option.none)) := by
  constructor
  · intro v hv
    simp [get_attr, hv]
  · intro h
    simp [get_attr, lookup_eq_none_of_not_mem_keys d.doc name h]

theorem get_attr_spec_witness :
    get_attr doc1 "name" = Option.some (Value.str "alice")
    ∧ get_attr doc1 "missing" = Option.none :=
  ⟨(get_attr_spec doc1 "name").1 (YcdValueType.yString "alice") rfl,
   (get_attr_spec doc1 "missing").2 (by decide)⟩

/-- C5: a helper invocation is isolated from external faults: if the Python
call faults, the invocation returns an error carrying only the diagnostic text
of the fault (the `Error` type holds a kind and a string, so the fault's
identity is not propagated); if the returned value cannot convert into a
Structured Value, the invocation fails with the same uniform marshal error; and
concretely, a render whose helper faults returns an error while a subsequent
render on an unrelated input succeeds normally. -/
theorem helper_fault_isolation (pyf : PyCallable) (args : List Value) :
    ((∀ e, pyf.fn (args.map toObject) = Except.error e →
        create_helper_fn pyf args = Except.error
          ⟨ErrorKind.ImpossibleOperation, "Error in a function: " ++ pyErrDebug e⟩)
     ∧ (∀ v e, pyf.fn (args.map toObject) = Except.ok v →
          extractYcd v = Except.error e →
          create_helper_fn pyf args = Except.error
            ⟨ErrorKind.ImpossibleOperation, "Error in a function: " ++ pyErrDebug e⟩)
     ∧ (TemplateRenderer.render miniBackend rDocF [] tplCall).1
         = Except.error
             ⟨ErrorKind.ImpossibleOperation, "Error in a function: boom"⟩
     ∧ (TemplateRenderer.render miniBackend rDoc1 [] tplVar).1
         = Except.ok (Option.some "alice")) := by
  refine ⟨?_, ?_, rfl, rfl⟩
  · intro e he
    simp [create_helper_fn, helperCallResult, he, convert_pyerr, convert_pyerr_val]
  · intro v e hv he
    simp [create_helper_fn, helperCallResult, hv, he, convert_pyerr, convert_pyerr_val]

theorem helper_fault_isolation_witness :
    create_helper_fn helperFault [] = Except.error
      ⟨ErrorKind.ImpossibleOperation, "Error in a function: boom"⟩
    ∧ create_helper_fn helperBadReturn [] = Except.error
      ⟨ErrorKind.ImpossibleOperation,
       "Error in a function: TypeError: cannot convert object to YcdValueType"⟩ :=
  ⟨(helper_fault_isolation helperFault []).1 ⟨"boom"⟩ rfl,
   (helper_fault_isolation helperBadReturn []).2.1 (PyObj.obj "object")
     ⟨"TypeError: cannot convert object to YcdValueType"⟩ rfl rfl⟩

/-- C6 (counterexample): a non-fast-path render call whose evaluation fails
returns before `remove_template` runs, so the compiled template is still
registered in the (consumed) environment when `render` returns: rendering a
call to an unbound helper takes the non-fast path, errors, and leaves the
template stored under the reused name. -/
theorem render_eval_error_keeps_template :
    tplCall.data.contains lbrace = true
    ∧ (TemplateRenderer.render miniBackend rDoc1 [] tplCall).1
        = Except.error
            ⟨ErrorKind.ImpossibleOperation, "Method f not found on object"⟩
    ∧ List.lookup TPL_NAME
        (TemplateRenderer.render miniBackend rDoc1 [] tplCall).2.templates
        = Option.some tplCall :=
  ⟨rfl, rfl, rfl⟩

/-- C6 (amended): for every render call that takes the non-fast path and
returns successfully, the compiled template registered under the single reused
template name has been removed from the evaluation environment before `render`
returns. -/
theorem render_removes_template_on_success (bk : Backend)
    (slf : TemplateRenderer) (helpers : List (String × PyCallable))
    (input out : String)
    (hin : input.data.contains lbrace = true)
    (hok : (TemplateRenderer.render bk slf helpers input).1
        = Except.ok (Option.some out)) :
    List.lookup TPL_NAME
      (TemplateRenderer.render bk slf helpers input).2.templates
      = Option.none := by
  unfold TemplateRenderer.render at hok ⊢
  rw [hin] at hok ⊢
  simp only [Bool.not_true, Bool.false_eq_true, if_false] at hok ⊢
  split at hok
  · exact absurd hok (by simp)
  · split at hok
    · exact absurd hok (by simp)
    · simp [Environment.remove_template, lookup_filterKey_self]

theorem render_removes_template_on_success_witness :
    List.lookup TPL_NAME
      (TemplateRenderer.render miniBackend rDoc1 [] tplVar).2.templates
      = Option.none :=
  render_removes_template_on_success miniBackend rDoc1 [] tplVar "alice" rfl rfl

/-- C7: the conversion from Structured Values to generic template values is a
total function on the closed variant set, the by-value and by-reference impls
agree on every value, and each of the seven variants converts to its documented
shape (Dict to a lazy map adapter object, List eagerly and deeply, scalars to
the matching primitive, a document reference to a document object). -/
theorem ycd_conversion_total :
    (∀ v : YcdValueType, valueOfYcdRef v = valueOfYcd v)
    ∧ (∀ m, valueOfYcd (YcdValueType.dict m) = Value.yhash m)
    ∧ (∀ l, valueOfYcd (YcdValueType.list l) = Value.seq (valueOfYcdList l))
    ∧ (∀ s, valueOfYcd (YcdValueType.yString s) = Value.str s)
    ∧ (∀ b, valueOfYcd (YcdValueType.bool b) = Value.bool b)
    ∧ (∀ i, valueOfYcd (YcdValueType.int i) = Value.i64 i)
    ∧ (∀ f, valueOfYcd (YcdValueType.float f) = Value.f64 f)
    ∧ (∀ d, valueOfYcd (YcdValueType.ycd d) = Value.document d) :=
  ⟨valueOfYcdRef_eq_valueOfYcd, fun _ => rfl, fun _ => rfl, fun _ => rfl,
   fun _ => rfl, fun _ => rfl, fun _ => rfl, fun _ => rfl⟩

/-- C8: a String value round-trips through the value converter unchanged — it
converts to a string template value, displays as itself, marshals through
`WValue::to_object` to the identical Python string, and extracts back to the
identical Structured String; and concretely, rendering a template
interpolating `name` against a document whose field `name` holds the String
"alice" returns "alice". -/
theorem string_roundtrip :
    (∀ s : String,
       valueOfYcd (YcdValueType.yString s) = Value.str s
       ∧ displayValue (valueOfYcd (YcdValueType.yString s)) = s
       ∧ toObject (valueOfYcd (YcdValueType.yString s)) = PyObj.str s
       ∧ extractYcd (toObject (valueOfYcd (YcdValueType.yString s)))
           = Except.ok (YcdValueType.yString s))
    ∧ (TemplateRenderer.render miniBackend rDoc1 [] tplVar).1
        = Except.ok (Option.some "alice") :=
  ⟨fun _ => ⟨rfl, rfl, rfl, rfl⟩, rfl⟩

/-- C9: `add_helpers` touches only the `globals` map: the environment and the
document are unchanged, and a lookup in the resulting map finds the
last-registered callable with the looked-up declared name (wrapped by the
Helper Function Adapter), falling back to the previous map for names not
registered in this call. -/
theorem add_helpers_last_wins (slf : TemplateRenderer) (fs : List PyCallable)
    (n : String) :
    (slf.add_helpers fs).env = slf.env
    ∧ (slf.add_helpers fs).document = slf.document
    ∧ List.lookup n (slf.add_helpers fs).globals
        = match List.find? (fun f => f.name == n) fs.reverse with
          | Option.some f => Option.some (create_helper_fn f)
          | Option.none => List.lookup n slf.globals :=
  ⟨rfl, rfl, foldl_mapInsert_lookup fs slf.globals n⟩

/-- C10: at the argument-marshalling boundary of a helper invocation, an
argument whose generic template value is not a primitive (a sequence, a map,
an object value) and likewise the undefined value is passed to the external
callable as Python None: the invocation proceeds on the argument tuple with
None in that position. -/
theorem composite_args_marshal_to_none (pyf : PyCallable)
    (pre post : List Value) (v : Value)
    (h : (∃ xs, v = Value.seq xs) ∨ (∃ m, v = Value.map m)
         ∨ (∃ d, v = Value.document d) ∨ (∃ m, v = Value.yhash m)
         ∨ v = Value.undefined) :
    create_helper_fn pyf (pre ++ v :: post)
      = helperCallResult pyf
          (pre.map toObject ++ PyObj.none :: post.map toObject) := by
  have hv : toObject v = PyObj.none := by
    rcases h with ⟨xs, rfl⟩ | ⟨m, rfl⟩ | ⟨d, rfl⟩ | ⟨m, rfl⟩ | rfl <;> rfl
  simp [create_helper_fn, hv]

theorem composite_args_marshal_to_none_witness :
    create_helper_fn helperHi [Value.seq [], Value.str "x"]
      = helperCallResult helperHi [PyObj.none, PyObj.str "x"] :=
  composite_args_marshal_to_none helperHi [] [Value.str "x"] (Value.seq [])
    (Or.inl ⟨[], rfl⟩)

end Configcrunch
